import Mathlib

/-!
Shallow embedding of `GeminiResponseHandler.ts` (classes `GeminiResponseHandler`
and `GeminiAgent`).  Transport calls (`channel.sendEvent`,
`chatClient.partialUpdateMessage`, `channel.sendMessage`), the provider request
(`model.generateContentStream`), `abortController.abort()`, listener
deregistration and the `onDispose` callback are modelled as entries of an
effect trace; handler-local mutable fields become an explicit `State` record.
The stream delivered by the provider is modelled as a list of suspension-point
events: either a chunk (with the `Date.now()` value observed while processing
it) or an invocation of the `handleStopGenerating` listener interleaved at that
suspension point.
-/

namespace GeminiResponseHandler

/-- The `(cid, id)` pair of the `MessageResponse` the handler streams into. -/
structure Message where
  cid : String
  id : String
  deriving Repr, DecidableEq

/-- Mutable fields of a `GeminiResponseHandler` instance: `message_text`
(the prompt, set by `setPrompt`), `last_update_time`, `is_done`, plus two
booleans tracking whether the `ai_indicator.stop` listener is currently
registered and whether `abortController` has been assigned by `run`. -/
structure State where
  message_text : String
  last_update_time : Nat
  is_done : Bool
  listenerOn : Bool
  abortControllerSet : Bool
  deriving Repr, DecidableEq

/-- Handler state right after the constructor ran: empty prompt, zero
throttle timestamp, not done, stop-listener registered, no abort controller. -/
def initState : State :=
  { message_text := ""
    last_update_time := 0
    is_done := false
    listenerOn := true
    abortControllerSet := false }

/-- One observable side effect of the handler or agent code. -/
inductive Effect where
  | sendEvent (type : String) (ai_state : Option String) (cid : String) (message_id : String)
  | partialUpdateMessage (message_id : String) (text : String) (message : Option String)
  | generateContentStream (prompt : String)
  | abort
  | offStopListener
  | onDispose
  | sendMessage (text : String) (ai_generated : Bool)
  | offMessageNewListener
  | disconnectUser
  deriving Repr, DecidableEq

/-- A JavaScript error value as observed by run's catch clause:
its `name` and its (possibly absent) `message`. -/
structure GenError where
  name : String
  message : Option String
  deriving Repr, DecidableEq

/-- `error.toString()` for the modelled error value. -/
def GenError.toString (e : GenError) : String :=
  e.name ++ ": " ++ (e.message.getD "")

/-- `dispose`: return immediately if `is_done`; otherwise set `is_done`,
unregister the `ai_indicator.stop` listener and invoke `onDispose`. -/
def dispose (s : State) : State × List Effect :=
  if s.is_done then (s, [])
  else ({ s with is_done := true, listenerOn := false },
        [Effect.offStopListener, Effect.onDispose])

/-- `handleStopGenerating`: ignore the event if `is_done` or the event's
`message_id` differs from this handler's message id; otherwise abort the
controller (when one was assigned), send `ai_indicator.clear` and dispose. -/
def handleStopGenerating (m : Message) (s : State) (event_message_id : Option String) :
    State × List Effect :=
  if s.is_done ∨ event_message_id ≠ some m.id then (s, [])
  else
    let abortEffs := if s.abortControllerSet then [Effect.abort] else []
    ((dispose s).1,
     abortEffs
       ++ [Effect.sendEvent "ai_indicator.clear" none m.cid m.id]
       ++ (dispose s).2)

/-- `handleError`: return immediately if `is_done`; otherwise send an
`AI_STATE_ERROR` indicator, rewrite the message text to the error's
description, and dispose. -/
def handleError (m : Message) (s : State) (e : GenError) : State × List Effect :=
  if s.is_done then (s, [])
  else
    ((dispose s).1,
     [Effect.sendEvent "ai_indicator.update" (some "AI_STATE_ERROR") m.cid m.id,
      Effect.partialUpdateMessage m.id
        (e.message.getD "Error generating the message") (some e.toString)]
       ++ (dispose s).2)

/-- One suspension-point event observed by run's `for await` loop: either the
next chunk (with the wall-clock value `Date.now()` returns while it is
processed) or delivery of an `ai_indicator.stop` event to this handler's
listener while the loop is suspended. -/
inductive StreamItem where
  | chunk (now : Nat) (text : String)
  | stop (event_message_id : Option String)
  deriving Repr, DecidableEq

/-- Result of the `for await (const chunk of result.stream)` loop: the handler
state afterwards, the local `fullResponse` accumulator, the effects issued
while looping, and whether the loop exited through `break`. -/
structure LoopResult where
  state : State
  fullResponse : String
  effs : List Effect
  broke : Bool
  deriving Repr, DecidableEq

/-- The `for await` loop of `run`: before processing each chunk, break if
`is_done`; append non-empty chunk text to `fullResponse`; issue a throttled
`partialUpdateMessage` when `now - last_update_time > 1000` and reset
`last_update_time`.  A `stop` item runs the `handleStopGenerating` listener at
that suspension point. -/
def runStream (m : Message) (s : State) (fullResponse : String) :
    List StreamItem → LoopResult
  | [] => ⟨s, fullResponse, [], false⟩
  | StreamItem.stop eid :: rest =>
      let r := runStream m (handleStopGenerating m s eid).1 fullResponse rest
      ⟨r.state, r.fullResponse, (handleStopGenerating m s eid).2 ++ r.effs, r.broke⟩
  | StreamItem.chunk now t :: rest =>
      if s.is_done then ⟨s, fullResponse, [], true⟩
      else if t = "" then runStream m s fullResponse rest
      else
        let full1 := fullResponse ++ t
        if now - s.last_update_time > 1000 then
          let r := runStream m { s with last_update_time := now } full1 rest
          ⟨r.state, r.fullResponse,
            Effect.partialUpdateMessage m.id full1 none :: r.effs, r.broke⟩
        else runStream m s full1 rest

/-- How run's stream terminates when the loop does not break out first:
normal exhaustion, or the awaited request/iteration throwing an error. -/
inductive StreamOutcome where
  | ok
  | err (e : GenError)
  deriving Repr, DecidableEq

/-- run's `catch` clause: an `AbortError` only sends `ai_indicator.clear`;
any other error goes through `handleError`. -/
def runCatch (m : Message) (s : State) (e : GenError) : State × List Effect :=
  if e.name = "AbortError" then
    (s, [Effect.sendEvent "ai_indicator.clear" none m.cid m.id])
  else handleError m s e

/-- `run`: assign a fresh `abortController`; send the `AI_STATE_GENERATING`
indicator (when that send throws, modelled by `generatingFailure`, control
goes straight to the catch clause); request `generateContentStream` with the
stored prompt; iterate the stream; on normal exit of the loop (exhaustion or
`break`) issue the unconditional final `partialUpdateMessage` and
`ai_indicator.clear`; a stream error reaching the loop (only possible when the
loop did not break) goes to the catch clause; finally, dispose. -/
def run (m : Message) (s : State) (generatingFailure : Option GenError)
    (items : List StreamItem) (outcome : StreamOutcome) : State × List Effect :=
  let s0 : State := { s with abortControllerSet := true }
  match generatingFailure with
  | some e =>
      ((dispose (runCatch m s0 e).1).1,
       (runCatch m s0 e).2 ++ (dispose (runCatch m s0 e).1).2)
  | none =>
      let prologue := [Effect.sendEvent "ai_indicator.update"
                        (some "AI_STATE_GENERATING") m.cid m.id,
                       Effect.generateContentStream s.message_text]
      let r := runStream m s0 "" items
      match r.broke, outcome with
      | false, StreamOutcome.err e =>
          ((dispose (runCatch m r.state e).1).1,
           prologue ++ r.effs ++ (runCatch m r.state e).2
             ++ (dispose (runCatch m r.state e).1).2)
      | _, _ =>
          ((dispose r.state).1,
           prologue ++ r.effs
             ++ [Effect.partialUpdateMessage m.id r.fullResponse none,
                 Effect.sendEvent "ai_indicator.clear" none m.cid m.id]
             ++ (dispose r.state).2)

/-- `setPrompt`: store the fully assembled prompt in `message_text`. -/
def setPrompt (s : State) (prompt : String) : State :=
  { s with message_text := prompt }

end GeminiResponseHandler

namespace GeminiAgent

/-- Registry state of a `GeminiAgent`: the `handlers` array.  Since handler
removal in the source compares object identity (`handler !== handlerToRemove`),
each registered handler is tagged with a numeric identity. -/
structure AgentState where
  handlers : List (Nat × GeminiResponseHandler.State)
  deriving Repr, DecidableEq

/-- `removeHandler`: keep exactly the handlers different from the one being
removed. -/
def removeHandler (a : AgentState) (i : Nat) : AgentState :=
  { a with handlers := a.handlers.filter (fun p => p.1 != i) }

/-- The `this.handlers.forEach((handler) => handler.dispose())` loop of the
agent's `dispose`, iterating over a snapshot of the registry: each handler is
disposed, and whenever its disposal actually fires `onDispose` the registered
callback `() => this.removeHandler(handler)` removes it from the registry.
Returns the registry afterwards and the post-disposal handler states. -/
def agentDisposeLoop :
    AgentState → List (Nat × GeminiResponseHandler.State) →
      AgentState × List (Nat × GeminiResponseHandler.State)
  | a, [] => (a, [])
  | a, (i, h) :: rest =>
      let a1 := if (GeminiResponseHandler.dispose h).2.contains
                    GeminiResponseHandler.Effect.onDispose
                then removeHandler a i else a
      ((agentDisposeLoop a1 rest).1,
       (i, (GeminiResponseHandler.dispose h).1) :: (agentDisposeLoop a1 rest).2)

/-- `GeminiAgent.dispose`: unsubscribe from `message.new`, disconnect the
user, dispose every handler in the registry (each removal happening through
its `onDispose` callback), then assign `this.handlers = []`.  Returns the
final agent state, the post-disposal states of the handlers that were in the
registry, and the transport effects. -/
def dispose (a : AgentState) :
    AgentState × List (Nat × GeminiResponseHandler.State) ×
      List GeminiResponseHandler.Effect :=
  ({ (agentDisposeLoop a a.handlers).1 with handlers := [] },
   (agentDisposeLoop a a.handlers).2,
   [GeminiResponseHandler.Effect.offMessageNewListener,
    GeminiResponseHandler.Effect.disconnectUser])

/-- The `e.message` payload of a `message.new` event: its `text`, its
`ai_generated` flag, and the optional `custom.writingTask`. -/
structure MessageBody where
  text : Option String
  ai_generated : Bool
  writingTask : Option String
  deriving Repr, DecidableEq

/-- A `message.new` event as seen by `handleMessage`. -/
structure MessageEvent where
  message : Option MessageBody
  deriving Repr, DecidableEq

/-- `getWritingAssistantPrompt`: the fixed instruction template with the
current date and the optional writing-task context spliced in. -/
def getWritingAssistantPrompt (currentDate : String) (context : Option String) : String :=
  "You are an expert AI Writing Assistant. Your primary purpose is to be a collaborative writing partner.\n\n**Your Core Capabilities:**\n- Content Creation, Improvement, Style Adaptation, Brainstorming, and Writing Coaching.\n- **Web Search**: You have the ability to search the web for up-to-date information when needed.\n- **Current Date**: Today\x27s date is "
  ++ currentDate ++
  ". Please use this for any time-sensitive queries.\n\n**Crucial Instructions:**\n1. When users ask for current information, news, or facts, you should search the web for the most up-to-date information.\n2. Synthesize information from web searches to provide comprehensive and accurate answers. Cite sources if available.\n3. Be direct and production-ready in your responses.\n4. Use clear formatting and structure.\n5. Never begin responses with phrases like \"Here\x27s the edit:\", \"Here are the changes:\", or similar introductory statements.\n6. Provide responses directly and professionally without unnecessary preambles.\n\n**Writing Context**: "
  ++ (context.getD "General writing assistance.") ++
  "\n\nYour goal is to provide accurate, current, and helpful written content. Always strive for clarity, accuracy, and helpfulness in your responses."

/-- `handleMessage`: ignore the event (returning `none`: no transport write,
no handler spawned) when the model is not configured, the event has no
message, the message is `ai_generated`, or it has no (non-empty) text.
Otherwise create the empty `ai_generated` placeholder message (whose id the
transport chooses, here the parameter `placeholder`), emit the
`AI_STATE_THINKING` indicator, and return those effects together with the
state of the newly constructed handler after `setPrompt(fullPrompt)`. -/
def handleMessage (modelConfigured : Bool) (currentDate : String)
    (placeholder : GeminiResponseHandler.Message) (e : MessageEvent) :
    Option (List GeminiResponseHandler.Effect × GeminiResponseHandler.State) :=
  if ¬ modelConfigured then none
  else
    match e.message with
    | none => none
    | some body =>
      if body.ai_generated then none
      else
        match body.text with
        | none => none
        | some message =>
          if message = "" then none
          else
            let context := body.writingTask.map (fun w => "Writing Task: " ++ w)
            let instructions := getWritingAssistantPrompt currentDate context
            let fullPrompt := instructions ++ "\n\nUser Message: " ++ message
            some
              ([GeminiResponseHandler.Effect.sendMessage "" true,
                GeminiResponseHandler.Effect.sendEvent "ai_indicator.update"
                  (some "AI_STATE_THINKING") placeholder.cid placeholder.id],
               GeminiResponseHandler.setPrompt GeminiResponseHandler.initState fullPrompt)

end GeminiAgent

open GeminiResponseHandler

/-- The texts carried by the `partialUpdateMessage` effects of a trace, in
order of emission. -/
def partialTexts (effs : List Effect) : List String :=
  effs.filterMap fun e =>
    match e with
    | Effect.partialUpdateMessage _ t _ => some t
    | _ => none

/-- Every element of the list extends the previous one (the first extending
`a`) by appending a suffix. -/
def chainFrom (a : String) : List String → Prop
  | [] => True
  | b :: rest => (∃ t, b = a ++ t) ∧ chainFrom b rest

/-- Each element of the list is obtained from its predecessor by appending a
suffix. -/
def prefixChain : List String → Prop
  | [] => True
  | a :: rest => chainFrom a rest

/-- Concatenation of the chunk texts the loop appends to `fullResponse`
before `is_done` becomes true, i.e. before the first stop signal aimed at
this handler's message. -/
def textBeforeDone (m : Message) : List StreamItem → String
  | [] => ""
  | StreamItem.chunk _ t :: rest => t ++ textBeforeDone m rest
  | StreamItem.stop eid :: rest =>
      if eid = some m.id then "" else textBeforeDone m rest

/-- The `(time, text)` pairs of the throttled in-loop flushes: walking the
chunk list with the source's throttle rule (flush when
`now - last_update_time > 1000`, then reset the timestamp). -/
def loopFlushes (last : Nat) (full : String) : List (Nat × String) → List (Nat × String)
  | [] => []
  | (now, t) :: rest =>
      if t = "" then loopFlushes last full rest
      else
        let full1 := full ++ t
        if now - last > 1000 then (now, full1) :: loopFlushes now full1 rest
        else loopFlushes last full1 rest

/-- View a list of `(Date.now(), chunk text)` pairs as stream items. -/
def chunkItems (chunks : List (Nat × String)) : List StreamItem :=
  chunks.map fun p => StreamItem.chunk p.1 p.2

/-- An externally triggered call on a handler: `dispose`, the stop-signal
listener, or the error handler. -/
inductive HOp where
  | disposeOp
  | stopOp (event_message_id : Option String)
  | errorOp (e : GenError)
  deriving Repr, DecidableEq

/-- Execute one externally triggered call. -/
def applyOp (m : Message) (s : State) : HOp → State × List Effect
  | HOp.disposeOp => dispose s
  | HOp.stopOp eid => handleStopGenerating m s eid
  | HOp.errorOp e => handleError m s e

/-- Execute a sequence of externally triggered calls, concatenating their
effect traces. -/
def applyOps (m : Message) (s : State) : List HOp → State × List Effect
  | [] => (s, [])
  | op :: rest =>
      ((applyOps m (applyOp m s op).1 rest).1,
       (applyOp m s op).2 ++ (applyOps m (applyOp m s op).1 rest).2)

/-- No stream item delivers a stop signal aimed at this handler's message. -/
def noStopSignalFor (m : Message) (items : List StreamItem) : Bool :=
  items.all fun x =>
    match x with
    | StreamItem.stop eid => eid != some m.id
    | _ => true

/-- Recognizer for the provider-request effect. -/
def isGenerateRequest : Effect → Bool
  | Effect.generateContentStream _ => true
  | _ => false

/-- Recognizer for message-update transport writes. -/
def isPartialUpdate : Effect → Bool
  | Effect.partialUpdateMessage _ _ _ => true
  | _ => false

/-! ### Basic facts about disposal and the externally triggered callbacks -/

lemma dispose_of_done {s : State} (h : s.is_done = true) : dispose s = (s, []) := by
  simp [dispose, h]

lemma dispose_of_not_done {s : State} (h : s.is_done = false) :
    dispose s = ({ s with is_done := true, listenerOn := false },
                 [Effect.offStopListener, Effect.onDispose]) := by
  simp [dispose, h]

lemma dispose_fst_is_done (s : State) : (dispose s).1.is_done = true := by
  cases h : s.is_done
  · simp [dispose_of_not_done h]
  · rw [dispose_of_done h]; exact h

lemma handleStop_of_done {s : State} (m : Message) (eid : Option String)
    (h : s.is_done = true) : handleStopGenerating m s eid = (s, []) := by
  simp [handleStopGenerating, h]

lemma handleStop_of_other {s : State} (m : Message) {eid : Option String}
    (h : eid ≠ some m.id) : handleStopGenerating m s eid = (s, []) := by
  simp [handleStopGenerating, h]

lemma handleStop_accepted {s : State} (m : Message)
    (hd : s.is_done = false) :
    handleStopGenerating m s (some m.id) =
      ({ s with is_done := true, listenerOn := false },
       (if s.abortControllerSet then [Effect.abort] else [])
         ++ [Effect.sendEvent "ai_indicator.clear" none m.cid m.id]
         ++ [Effect.offStopListener, Effect.onDispose]) := by
  simp [handleStopGenerating, hd, dispose_of_not_done hd]

lemma handleStop_fst_cases (m : Message) (s : State) (eid : Option String) :
    (handleStopGenerating m s eid).1 = s ∨
    (handleStopGenerating m s eid).1 = { s with is_done := true, listenerOn := false } := by
  by_cases h : eid = some m.id
  · cases hd : s.is_done
    · subst h
      rw [handleStop_accepted m hd]
      exact Or.inr rfl
    · rw [handleStop_of_done m eid hd]
      exact Or.inl rfl
  · rw [handleStop_of_other m h]
    exact Or.inl rfl

lemma handleError_of_done {s : State} (m : Message) (e : GenError)
    (h : s.is_done = true) : handleError m s e = (s, []) := by
  simp [handleError, h]

lemma handleError_of_not_done {s : State} (m : Message) (e : GenError)
    (h : s.is_done = false) :
    handleError m s e =
      ({ s with is_done := true, listenerOn := false },
       [Effect.sendEvent "ai_indicator.update" (some "AI_STATE_ERROR") m.cid m.id,
        Effect.partialUpdateMessage m.id
          (e.message.getD "Error generating the message") (some e.toString),
        Effect.offStopListener, Effect.onDispose]) := by
  simp [handleError, h, dispose_of_not_done h]

lemma applyOp_of_done (m : Message) {s : State} (op : HOp) (h : s.is_done = true) :
    applyOp m s op = (s, []) := by
  cases op with
  | disposeOp => simpa [applyOp] using dispose_of_done h
  | stopOp eid => simpa [applyOp] using handleStop_of_done m eid h
  | errorOp e => simpa [applyOp] using handleError_of_done m e h

lemma applyOps_of_done (m : Message) {s : State} (ops : List HOp) (h : s.is_done = true) :
    applyOps m s ops = (s, []) := by
  induction ops with
  | nil => rfl
  | cons op rest ih => simp [applyOps, applyOp_of_done m op h, ih]

/-! ### Facts about the chunk-iteration loop -/

lemma runStream_stop_eq (m : Message) (s : State) (full : String)
    (eid : Option String) (rest : List StreamItem) :
    runStream m s full (StreamItem.stop eid :: rest) =
      ⟨(runStream m (handleStopGenerating m s eid).1 full rest).state,
       (runStream m (handleStopGenerating m s eid).1 full rest).fullResponse,
       (handleStopGenerating m s eid).2
         ++ (runStream m (handleStopGenerating m s eid).1 full rest).effs,
       (runStream m (handleStopGenerating m s eid).1 full rest).broke⟩ := rfl

lemma runStream_chunk_done {s : State} (m : Message) (full : String)
    (now : Nat) (t : String) (rest : List StreamItem) (hd : s.is_done = true) :
    runStream m s full (StreamItem.chunk now t :: rest) = ⟨s, full, [], true⟩ := by
  simp [runStream, hd]

lemma runStream_chunk_empty {s : State} (m : Message) (full : String)
    (now : Nat) (rest : List StreamItem) (hd : s.is_done = false) :
    runStream m s full (StreamItem.chunk now "" :: rest) =
      runStream m s full rest := by
  simp [runStream, hd]

lemma runStream_chunk_flush {s : State} (m : Message) (full : String)
    (now : Nat) (t : String) (rest : List StreamItem)
    (hd : s.is_done = false) (ht : t ≠ "") (hth : now - s.last_update_time > 1000) :
    runStream m s full (StreamItem.chunk now t :: rest) =
      ⟨(runStream m { s with last_update_time := now } (full ++ t) rest).state,
       (runStream m { s with last_update_time := now } (full ++ t) rest).fullResponse,
       Effect.partialUpdateMessage m.id (full ++ t) none
         :: (runStream m { s with last_update_time := now } (full ++ t) rest).effs,
       (runStream m { s with last_update_time := now } (full ++ t) rest).broke⟩ := by
  simp [runStream, hd, ht, hth]

lemma runStream_chunk_noflush {s : State} (m : Message) (full : String)
    (now : Nat) (t : String) (rest : List StreamItem)
    (hd : s.is_done = false) (ht : t ≠ "") (hth : ¬ now - s.last_update_time > 1000) :
    runStream m s full (StreamItem.chunk now t :: rest) =
      runStream m s (full ++ t) rest := by
  simp [runStream, hd, ht, hth]

lemma runStream_of_done (m : Message) (items : List StreamItem) {s : State}
    (full : String) (h : s.is_done = true) :
    (runStream m s full items).state = s ∧
    (runStream m s full items).fullResponse = full ∧
    (runStream m s full items).effs = [] := by
  induction items with
  | nil => exact ⟨rfl, rfl, rfl⟩
  | cons x rest ih =>
    cases x with
    | chunk now t => simp [runStream, h]
    | stop eid => simpa [runStream, handleStop_of_done m eid h] using ih

lemma runStream_abortSet (m : Message) (items : List StreamItem) :
    ∀ (s : State) (full : String),
      (runStream m s full items).state.abortControllerSet = s.abortControllerSet := by
  induction items with
  | nil => intro s full; rfl
  | cons x rest ih =>
    intro s full
    cases x with
    | chunk now t =>
      cases hd : s.is_done
      · by_cases ht : t = ""
        · simpa [runStream, hd, ht] using ih s full
        · by_cases hth : now - s.last_update_time > 1000
          · simpa [runStream, hd, ht, hth] using
              ih { s with last_update_time := now } (full ++ t)
          · simpa [runStream, hd, ht, hth] using ih s (full ++ t)
      · simp [runStream, hd]
    | stop eid =>
      have := ih (handleStopGenerating m s eid).1 full
      rcases handleStop_fst_cases m s eid with hc | hc <;>
        simp [runStream, hc] at this ⊢ <;> simpa using this

lemma runStream_not_broke (m : Message) (items : List StreamItem) :
    ∀ (s : State) (full : String),
      (runStream m s full items).state.is_done = false →
      (runStream m s full items).broke = false ∧ s.is_done = false := by
  induction items with
  | nil => intro s full h; exact ⟨rfl, h⟩
  | cons x rest ih =>
    intro s full h
    cases x with
    | chunk now t =>
      cases hd : s.is_done
      case false =>
        by_cases ht : t = ""
        · subst ht
          rw [runStream_chunk_empty m full now rest hd] at h ⊢
          exact ⟨(ih s full h).1, rfl⟩
        · by_cases hth : now - s.last_update_time > 1000
          · rw [runStream_chunk_flush m full now t rest hd ht hth] at h ⊢
            exact ⟨(ih { s with last_update_time := now } (full ++ t) h).1, rfl⟩
          · rw [runStream_chunk_noflush m full now t rest hd ht hth] at h ⊢
            exact ⟨(ih s (full ++ t) h).1, rfl⟩
      case true =>
        rw [runStream_chunk_done m full now t rest hd] at h
        have h' : s.is_done = false := h
        rw [hd] at h'
        exact absurd h' (by simp)
    | stop eid =>
      have h' : (runStream m (handleStopGenerating m s eid).1 full rest).state.is_done
          = false := h
      have h2 := ih (handleStopGenerating m s eid).1 full h'
      refine ⟨h2.1, ?_⟩
      rcases handleStop_fst_cases m s eid with hc | hc
      · rw [hc] at h2; exact h2.2
      · rw [hc] at h2; simp at h2

lemma runStream_append (m : Message) (ys : List StreamItem) :
    ∀ (xs : List StreamItem) (s : State) (full : String),
      (runStream m s full xs).broke = false →
      runStream m s full (xs ++ ys) =
        ⟨(runStream m (runStream m s full xs).state
            (runStream m s full xs).fullResponse ys).state,
         (runStream m (runStream m s full xs).state
            (runStream m s full xs).fullResponse ys).fullResponse,
         (runStream m s full xs).effs
           ++ (runStream m (runStream m s full xs).state
                 (runStream m s full xs).fullResponse ys).effs,
         (runStream m (runStream m s full xs).state
            (runStream m s full xs).fullResponse ys).broke⟩ := by
  intro xs
  induction xs with
  | nil => intro s full _; simp [runStream]
  | cons x rest ih =>
    intro s full h
    cases x with
    | stop eid =>
      have h' : (runStream m (handleStopGenerating m s eid).1 full rest).broke = false := h
      have e1 := ih (handleStopGenerating m s eid).1 full h'
      simp only [List.cons_append, runStream_stop_eq, e1]
      simp [List.append_assoc]
    | chunk now t =>
      cases hd : s.is_done
      case true =>
        rw [runStream_chunk_done m full now t rest hd] at h
        exact absurd h (by simp)
      case false =>
        by_cases ht : t = ""
        · subst ht
          rw [runStream_chunk_empty m full now rest hd] at h
          rw [List.cons_append, runStream_chunk_empty m full now (rest ++ ys) hd,
              runStream_chunk_empty m full now rest hd]
          exact ih s full h
        · by_cases hth : now - s.last_update_time > 1000
          · have h' : (runStream m { s with last_update_time := now }
                (full ++ t) rest).broke = false := by
              rw [runStream_chunk_flush m full now t rest hd ht hth] at h; exact h
            rw [List.cons_append, runStream_chunk_flush m full now t (rest ++ ys) hd ht hth,
                runStream_chunk_flush m full now t rest hd ht hth,
                ih { s with last_update_time := now } (full ++ t) h']
            simp [List.append_assoc]
          · rw [runStream_chunk_noflush m full now t rest hd ht hth] at h
            rw [List.cons_append, runStream_chunk_noflush m full now t (rest ++ ys) hd ht hth,
                runStream_chunk_noflush m full now t rest hd ht hth]
            exact ih s (full ++ t) h

lemma runStream_full (m : Message) (items : List StreamItem) :
    ∀ (s : State) (full : String), s.is_done = false →
      (runStream m s full items).fullResponse = full ++ textBeforeDone m items := by
  induction items with
  | nil =>
    intro s full hd
    show full = full ++ textBeforeDone m []
    rw [show textBeforeDone m [] = "" from rfl, String.append_empty]
  | cons x rest ih =>
    intro s full hd
    cases x with
    | chunk now t =>
      by_cases ht : t = ""
      · subst ht
        rw [runStream_chunk_empty m full now rest hd, ih s full hd,
            show textBeforeDone m (StreamItem.chunk now "" :: rest)
              = "" ++ textBeforeDone m rest from rfl,
            String.empty_append]
      · by_cases hth : now - s.last_update_time > 1000
        · rw [runStream_chunk_flush m full now t rest hd ht hth]
          have hd' : ({ s with last_update_time := now } : State).is_done = false := hd
          show (runStream m { s with last_update_time := now } (full ++ t) rest).fullResponse
              = full ++ textBeforeDone m (StreamItem.chunk now t :: rest)
          rw [ih { s with last_update_time := now } (full ++ t) hd',
              show textBeforeDone m (StreamItem.chunk now t :: rest)
                = t ++ textBeforeDone m rest from rfl,
              String.append_assoc]
        · rw [runStream_chunk_noflush m full now t rest hd ht hth,
              ih s (full ++ t) hd,
              show textBeforeDone m (StreamItem.chunk now t :: rest)
                = t ++ textBeforeDone m rest from rfl,
              String.append_assoc]
    | stop eid =>
      rw [runStream_stop_eq]
      show (runStream m (handleStopGenerating m s eid).1 full rest).fullResponse
          = full ++ textBeforeDone m (StreamItem.stop eid :: rest)
      by_cases he : eid = some m.id
      · subst he
        rw [handleStop_accepted m hd]
        have hdone : ({ s with is_done := true, listenerOn := false } : State).is_done
            = true := rfl
        rw [(runStream_of_done m rest full hdone).2.1,
            show textBeforeDone m (StreamItem.stop (some m.id) :: rest) = "" by
              simp [textBeforeDone],
            String.append_empty]
      · rw [handleStop_of_other m he]
        show (runStream m s full rest).fullResponse
            = full ++ textBeforeDone m (StreamItem.stop eid :: rest)
        rw [ih s full hd, show textBeforeDone m (StreamItem.stop eid :: rest)
              = textBeforeDone m rest by simp [textBeforeDone, he]]

/-! ### Prefix-chain facts about the update texts -/

lemma chainFrom_weaken : ∀ (l : List String) (a t : String),
    chainFrom (a ++ t) l → chainFrom a l
  | [], _, _, _ => trivial
  | _ :: _, a, t, h => by
    obtain ⟨⟨u, hb⟩, hc⟩ := h
    exact ⟨⟨t ++ u, by rw [hb, String.append_assoc]⟩, hc⟩

lemma prefixChain_of_chainFrom {l : List String} {a : String} (h : chainFrom a l) :
    prefixChain l := by
  cases l with
  | nil => trivial
  | cons b rest => exact h.2

lemma chainFrom_self (a : String) : chainFrom a [a] :=
  ⟨⟨"", (String.append_empty a).symm⟩, trivial⟩

lemma partialTexts_append (xs ys : List Effect) :
    partialTexts (xs ++ ys) = partialTexts xs ++ partialTexts ys := by
  simp [partialTexts, List.filterMap_append]

lemma partialTexts_cons_sendEvent (ty : String) (st : Option String)
    (cid mid : String) (l : List Effect) :
    partialTexts (Effect.sendEvent ty st cid mid :: l) = partialTexts l := rfl

lemma partialTexts_cons_gen (p : String) (l : List Effect) :
    partialTexts (Effect.generateContentStream p :: l) = partialTexts l := rfl

lemma partialTexts_cons_update (mid t : String) (msg : Option String) (l : List Effect) :
    partialTexts (Effect.partialUpdateMessage mid t msg :: l)
      = t :: partialTexts l := rfl

lemma partialTexts_dispose (s : State) : partialTexts (dispose s).2 = [] := by
  unfold dispose
  split_ifs <;> simp [partialTexts]

lemma partialTexts_handleStop (m : Message) (s : State) (eid : Option String) :
    partialTexts (handleStopGenerating m s eid).2 = [] := by
  unfold handleStopGenerating dispose
  split_ifs <;> simp [partialTexts]

lemma runStream_chain (m : Message) (items : List StreamItem) :
    ∀ (s : State) (full : String),
      chainFrom full (partialTexts (runStream m s full items).effs
        ++ [(runStream m s full items).fullResponse]) := by
  induction items with
  | nil => intro s full; exact chainFrom_self full
  | cons x rest ih =>
    intro s full
    cases x with
    | stop eid =>
      rw [runStream_stop_eq]
      have := ih (handleStopGenerating m s eid).1 full
      simpa [partialTexts_append, partialTexts_handleStop] using this
    | chunk now t =>
      cases hd : s.is_done
      case true =>
        rw [runStream_chunk_done m full now t rest hd]
        exact chainFrom_self full
      case false =>
        by_cases ht : t = ""
        · subst ht
          rw [runStream_chunk_empty m full now rest hd]
          exact ih s full
        · by_cases hth : now - s.last_update_time > 1000
          · rw [runStream_chunk_flush m full now t rest hd ht hth]
            exact ⟨⟨t, rfl⟩, ih { s with last_update_time := now } (full ++ t)⟩
          · rw [runStream_chunk_noflush m full now t rest hd ht hth]
            exact chainFrom_weaken _ full t (ih s (full ++ t))

lemma countP_gen_dispose (s : State) :
    ((dispose s).2.countP isGenerateRequest) = 0 := by
  unfold dispose
  split_ifs <;> simp [isGenerateRequest]

lemma countP_gen_handleStop (m : Message) (s : State) (eid : Option String) :
    ((handleStopGenerating m s eid).2.countP isGenerateRequest) = 0 := by
  unfold handleStopGenerating dispose
  split_ifs <;> simp [isGenerateRequest]

lemma runStream_countP_gen (m : Message) (items : List StreamItem) :
    ∀ (s : State) (full : String),
      ((runStream m s full items).effs.countP isGenerateRequest) = 0 := by
  induction items with
  | nil => intro s full; rfl
  | cons x rest ih =>
    intro s full
    cases x with
    | stop eid =>
      rw [runStream_stop_eq]
      simp only [List.countP_append]
      rw [countP_gen_handleStop, ih (handleStopGenerating m s eid).1 full]
    | chunk now t =>
      cases hd : s.is_done
      case true => rw [runStream_chunk_done m full now t rest hd]; rfl
      case false =>
        by_cases ht : t = ""
        · subst ht
          rw [runStream_chunk_empty m full now rest hd]
          exact ih s full
        · by_cases hth : now - s.last_update_time > 1000
          · rw [runStream_chunk_flush m full now t rest hd ht hth]
            simp only [List.countP_cons]
            rw [ih { s with last_update_time := now } (full ++ t)]
            simp [isGenerateRequest]
          · rw [runStream_chunk_noflush m full now t rest hd ht hth]
            exact ih s (full ++ t)

/-! ### Facts about the throttle -/

lemma chunkItems_cons (now : Nat) (t : String) (rest : List (Nat × String)) :
    chunkItems ((now, t) :: rest) = StreamItem.chunk now t :: chunkItems rest := rfl

lemma runStream_loopFlushes (m : Message) (chunks : List (Nat × String)) :
    ∀ (s : State) (full : String), s.is_done = false →
      (runStream m s full (chunkItems chunks)).effs =
        (loopFlushes s.last_update_time full chunks).map
          (fun p => Effect.partialUpdateMessage m.id p.2 none) := by
  induction chunks with
  | nil => intro s full hd; simp [chunkItems, runStream, loopFlushes]
  | cons c rest ih =>
    intro s full hd
    obtain ⟨now, t⟩ := c
    rw [chunkItems_cons]
    by_cases ht : t = ""
    · subst ht
      rw [runStream_chunk_empty m full now (chunkItems rest) hd]
      rw [show loopFlushes s.last_update_time full ((now, "") :: rest)
            = loopFlushes s.last_update_time full rest by simp [loopFlushes]]
      exact ih s full hd
    · by_cases hth : now - s.last_update_time > 1000
      · rw [runStream_chunk_flush m full now t (chunkItems rest) hd ht hth]
        have hd' : ({ s with last_update_time := now } : State).is_done = false := hd
        rw [show loopFlushes s.last_update_time full ((now, t) :: rest)
              = (now, full ++ t) :: loopFlushes now (full ++ t) rest by
            simp [loopFlushes, ht, hth]]
        simp only [List.map_cons]
        rw [show (runStream m { s with last_update_time := now } (full ++ t)
              (chunkItems rest)).effs
            = (loopFlushes now (full ++ t) rest).map
                (fun p => Effect.partialUpdateMessage m.id p.2 none) from
            ih { s with last_update_time := now } (full ++ t) hd']
      · rw [runStream_chunk_noflush m full now t (chunkItems rest) hd ht hth]
        rw [show loopFlushes s.last_update_time full ((now, t) :: rest)
              = loopFlushes s.last_update_time (full ++ t) rest by
            simp [loopFlushes, ht, hth]]
        exact ih s (full ++ t) hd

lemma loopFlushes_lb (chunks : List (Nat × String)) :
    ∀ (last : Nat) (full : String),
      ∀ p ∈ loopFlushes last full chunks, last + 1000 < p.1 := by
  induction chunks with
  | nil => intro last full p hp; simp [loopFlushes] at hp
  | cons c rest ih =>
    intro last full p hp
    obtain ⟨now, t⟩ := c
    by_cases ht : t = ""
    · subst ht
      rw [show loopFlushes last full ((now, "") :: rest)
            = loopFlushes last full rest by simp [loopFlushes]] at hp
      exact ih last full p hp
    · by_cases hth : now - last > 1000
      · rw [show loopFlushes last full ((now, t) :: rest)
              = (now, full ++ t) :: loopFlushes now (full ++ t) rest by
            simp [loopFlushes, ht, hth]] at hp
        rcases List.mem_cons.mp hp with rfl | hmem
        · simp; omega
        · have := ih now (full ++ t) p hmem
          omega
      · rw [show loopFlushes last full ((now, t) :: rest)
              = loopFlushes last (full ++ t) rest by
            simp [loopFlushes, ht, hth]] at hp
        exact ih last (full ++ t) p hp

lemma loopFlushes_pairwise (chunks : List (Nat × String)) :
    ∀ (last : Nat) (full : String),
      List.Pairwise (fun a b => a + 1000 < b)
        ((loopFlushes last full chunks).map Prod.fst) := by
  induction chunks with
  | nil => intro last full; simp [loopFlushes]
  | cons c rest ih =>
    intro last full
    obtain ⟨now, t⟩ := c
    by_cases ht : t = ""
    · subst ht
      rw [show loopFlushes last full ((now, "") :: rest)
            = loopFlushes last full rest by simp [loopFlushes]]
      exact ih last full
    · by_cases hth : now - last > 1000
      · rw [show loopFlushes last full ((now, t) :: rest)
              = (now, full ++ t) :: loopFlushes now (full ++ t) rest by
            simp [loopFlushes, ht, hth]]
        simp only [List.map_cons]
        refine List.Pairwise.cons ?_ (ih now (full ++ t))
        intro b hb
        obtain ⟨p, hp, hb⟩ := List.mem_map.mp hb
        have := loopFlushes_lb rest now (full ++ t) p hp
        omega
      · rw [show loopFlushes last full ((now, t) :: rest)
              = loopFlushes last (full ++ t) rest by
            simp [loopFlushes, ht, hth]]
        exact ih last (full ++ t)

/-! ### Facts about the agent registry -/

lemma agentDisposeLoop_done (l : List (Nat × State)) :
    ∀ (a : GeminiAgent.AgentState),
      ∀ p ∈ (GeminiAgent.agentDisposeLoop a l).2, p.2.is_done = true := by
  induction l with
  | nil => intro a p hp; simp [GeminiAgent.agentDisposeLoop] at hp
  | cons x rest ih =>
    intro a p hp
    obtain ⟨i, h⟩ := x
    simp only [GeminiAgent.agentDisposeLoop] at hp
    rcases List.mem_cons.mp hp with rfl | hmem
    · exact dispose_fst_is_done h
    · exact ih _ p hmem

lemma removeHandler_absent (a : GeminiAgent.AgentState) (i : Nat)
    (h : i ∉ a.handlers.map Prod.fst) : GeminiAgent.removeHandler a i = a := by
  unfold GeminiAgent.removeHandler
  have hf : a.handlers.filter (fun p => p.1 != i) = a.handlers := by
    apply List.filter_eq_self.mpr
    intro p hp
    have hne : p.1 ≠ i := by
      intro he
      exact h (List.mem_map.mpr ⟨p, hp, he⟩)
    simpa using hne
  rw [hf]

/-! ### Reduction of run along its three exit paths -/

lemma noStop_not_done (m : Message) (items : List StreamItem) :
    ∀ (s : State) (full : String), s.is_done = false →
      noStopSignalFor m items = true →
      (runStream m s full items).state.is_done = false ∧
      (runStream m s full items).broke = false := by
  induction items with
  | nil => intro s full hd _; exact ⟨hd, rfl⟩
  | cons x rest ih =>
    intro s full hd hns
    cases x with
    | stop eid =>
      simp only [noStopSignalFor, List.all_cons, Bool.and_eq_true] at hns
      have he : eid ≠ some m.id := by simpa using hns.1
      have hrest : noStopSignalFor m rest = true := hns.2
      rw [runStream_stop_eq, handleStop_of_other m he]
      exact ih s full hd hrest
    | chunk now t =>
      simp only [noStopSignalFor, List.all_cons, Bool.and_eq_true] at hns
      have hrest : noStopSignalFor m rest = true := hns.2
      by_cases ht : t = ""
      · subst ht
        rw [runStream_chunk_empty m full now rest hd]
        exact ih s full hd hrest
      · by_cases hth : now - s.last_update_time > 1000
        · rw [runStream_chunk_flush m full now t rest hd ht hth]
          exact ih { s with last_update_time := now } (full ++ t) hd hrest
        · rw [runStream_chunk_noflush m full now t rest hd ht hth]
          exact ih s (full ++ t) hd hrest

lemma run_some_eq (m : Message) (s : State) (e : GenError)
    (items : List StreamItem) (outcome : StreamOutcome) :
    run m s (some e) items outcome =
      ((dispose (runCatch m { s with abortControllerSet := true } e).1).1,
       (runCatch m { s with abortControllerSet := true } e).2
         ++ (dispose (runCatch m { s with abortControllerSet := true } e).1).2) := rfl

lemma run_none_ok (m : Message) (s : State) (items : List StreamItem) :
    run m s none items StreamOutcome.ok =
      ((dispose (runStream m { s with abortControllerSet := true } "" items).state).1,
       [Effect.sendEvent "ai_indicator.update" (some "AI_STATE_GENERATING") m.cid m.id,
        Effect.generateContentStream s.message_text]
         ++ (runStream m { s with abortControllerSet := true } "" items).effs
         ++ [Effect.partialUpdateMessage m.id
               (runStream m { s with abortControllerSet := true } "" items).fullResponse none,
             Effect.sendEvent "ai_indicator.clear" none m.cid m.id]
         ++ (dispose (runStream m { s with abortControllerSet := true } "" items).state).2) := by
  dsimp only [run]
  cases hb : (runStream m { s with abortControllerSet := true } "" items).broke <;> rfl

lemma run_none_err (m : Message) (s : State) (items : List StreamItem) (e : GenError)
    (hbroke : (runStream m { s with abortControllerSet := true } "" items).broke = false) :
    run m s none items (StreamOutcome.err e) =
      ((dispose (runCatch m
          (runStream m { s with abortControllerSet := true } "" items).state e).1).1,
       [Effect.sendEvent "ai_indicator.update" (some "AI_STATE_GENERATING") m.cid m.id,
        Effect.generateContentStream s.message_text]
         ++ (runStream m { s with abortControllerSet := true } "" items).effs
         ++ (runCatch m
              (runStream m { s with abortControllerSet := true } "" items).state e).2
         ++ (dispose (runCatch m
              (runStream m { s with abortControllerSet := true } "" items).state e).1).2) := by
  dsimp only [run]
  rw [hbroke]

lemma run_none_err_broke (m : Message) (s : State) (items : List StreamItem) (e : GenError)
    (hbroke : (runStream m { s with abortControllerSet := true } "" items).broke = true) :
    run m s none items (StreamOutcome.err e) =
      ((dispose (runStream m { s with abortControllerSet := true } "" items).state).1,
       [Effect.sendEvent "ai_indicator.update" (some "AI_STATE_GENERATING") m.cid m.id,
        Effect.generateContentStream s.message_text]
         ++ (runStream m { s with abortControllerSet := true } "" items).effs
         ++ [Effect.partialUpdateMessage m.id
               (runStream m { s with abortControllerSet := true } "" items).fullResponse none,
             Effect.sendEvent "ai_indicator.clear" none m.cid m.id]
         ++ (dispose (runStream m { s with abortControllerSet := true } "" items).state).2) := by
  dsimp only [run]
  rw [hbroke]

/-! ### Claim theorems -/

/-- Claim C7: a stop-signal event whose target message id differs from the
handler's own message id — and likewise any stop-signal event arriving when
`done` is already true — makes the stop-signal callback return immediately:
the handler state is unchanged and no effect (no abort, no event, no
disposal) is produced. -/
theorem stop_signal_scoping (m : Message) (s : State) (eid : Option String)
    (h : s.is_done = true ∨ eid ≠ some m.id) :
    handleStopGenerating m s eid = (s, []) := by
  rcases h with h | h
  · exact handleStop_of_done m eid h
  · exact handleStop_of_other m h

theorem stop_signal_scoping_witness :
    (initState.is_done = true ∨ (some "other" : Option String) ≠ some ("m" : String)) ∧
    handleStopGenerating ⟨"c", "m"⟩ initState (some "other") = (initState, []) :=
  ⟨Or.inr (by decide),
   stop_signal_scoping ⟨"c", "m"⟩ initState (some "other") (Or.inr (by decide))⟩

/-- Claim C10: a non-cancellation error delivered to `handleError` after the
handler is already disposed (`done = true`) performs no side effects: no
error indicator, no message rewrite, no state change. -/
theorem handleError_noop_after_dispose (m : Message) (s : State) (e : GenError)
    (h : s.is_done = true) : handleError m s e = (s, []) :=
  handleError_of_done m e h

theorem handleError_noop_after_dispose_witness :
    ({ initState with is_done := true } : State).is_done = true ∧
    handleError ⟨"c", "m"⟩ { initState with is_done := true }
        ⟨"TypeError", some "boom"⟩
      = ({ initState with is_done := true }, []) :=
  ⟨rfl, handleError_noop_after_dispose ⟨"c", "m"⟩
    { initState with is_done := true } ⟨"TypeError", some "boom"⟩ rfl⟩

/-- Claim C2: disposal is idempotent and the registry-removal callback fires
exactly once.  On a live handler the first `dispose` sets `done`, unregisters
the stop listener and invokes `onDispose`; afterwards every further externally
triggered call — another `dispose`, the stop-signal callback, the error
handler, in any order — returns immediately with no state change and no
effects, so the whole combined trace contains exactly one `onDispose`. -/
theorem dispose_idempotent_once (m : Message) (s : State) (ops : List HOp)
    (h : s.is_done = false) :
    dispose s = ({ s with is_done := true, listenerOn := false },
                 [Effect.offStopListener, Effect.onDispose]) ∧
    applyOps m (dispose s).1 ops = ((dispose s).1, []) ∧
    ((dispose s).2 ++ (applyOps m (dispose s).1 ops).2).count Effect.onDispose = 1 := by
  have h1 := dispose_of_not_done h
  have h2 := applyOps_of_done m ops (dispose_fst_is_done s)
  refine ⟨h1, h2, ?_⟩
  rw [h2, h1]
  show (([Effect.offStopListener, Effect.onDispose] : List Effect)
      ++ []).count Effect.onDispose = 1
  decide

theorem dispose_idempotent_once_witness :
    initState.is_done = false ∧
    (dispose initState = ({ initState with is_done := true, listenerOn := false },
                          [Effect.offStopListener, Effect.onDispose]) ∧
     applyOps ⟨"c", "m"⟩ (dispose initState).1
        [HOp.disposeOp, HOp.stopOp (some "m"), HOp.errorOp ⟨"TypeError", some "x"⟩]
       = ((dispose initState).1, []) ∧
     ((dispose initState).2 ++ (applyOps ⟨"c", "m"⟩ (dispose initState).1
        [HOp.disposeOp, HOp.stopOp (some "m"), HOp.errorOp ⟨"TypeError", some "x"⟩]).2).count
          Effect.onDispose = 1) :=
  ⟨rfl, dispose_idempotent_once ⟨"c", "m"⟩ initState
    [HOp.disposeOp, HOp.stopOp (some "m"), HOp.errorOp ⟨"TypeError", some "x"⟩] rfl⟩

/-- Claim C8: the inbound-message dispatcher spawns no handler and performs
no transport write (result `none`) when the model is not configured, when the
event carries no message, or when the message is flagged `ai_generated` — in
particular an AI-authored message never spawns a handler. -/
theorem handleMessage_ignores (modelConfigured : Bool) (currentDate : String)
    (placeholder : Message) (e : GeminiAgent.MessageEvent)
    (h : modelConfigured = false ∨ e.message = none ∨
         ∃ body, e.message = some body ∧ body.ai_generated = true) :
    GeminiAgent.handleMessage modelConfigured currentDate placeholder e = none := by
  rcases h with h | h | ⟨body, hb, hai⟩
  · simp [GeminiAgent.handleMessage, h]
  · simp [GeminiAgent.handleMessage, h]
  · simp [GeminiAgent.handleMessage, hb, hai]

theorem handleMessage_ignores_witness :
    ((false = false ∨ (GeminiAgent.MessageEvent.mk
        (some ⟨some "hi", true, none⟩)).message = none ∨
      ∃ body, (GeminiAgent.MessageEvent.mk
        (some ⟨some "hi", true, none⟩)).message = some body ∧
          body.ai_generated = true) ∧
     GeminiAgent.handleMessage true "January 1, 2026" ⟨"c", "m"⟩
        (GeminiAgent.MessageEvent.mk (some ⟨some "hi", true, none⟩)) = none) :=
  ⟨Or.inr (Or.inr ⟨⟨some "hi", true, none⟩, rfl, rfl⟩),
   handleMessage_ignores true "January 1, 2026" ⟨"c", "m"⟩
     (GeminiAgent.MessageEvent.mk (some ⟨some "hi", true, none⟩))
     (Or.inr (Or.inr ⟨⟨some "hi", true, none⟩, rfl, rfl⟩))⟩

/-- Claim C9: after the agent's `dispose`, every handler that was in the
registry reports `done = true` (including handlers that had already
self-disposed, for which the per-handler `dispose` is a total no-op rather
than an error) and the registry is empty; removing a handler that is absent
from the registry is a no-op. -/
theorem agent_dispose_teardown (a : GeminiAgent.AgentState) :
    (∀ p ∈ (GeminiAgent.dispose a).2.1, p.2.is_done = true) ∧
    (GeminiAgent.dispose a).1.handlers = [] ∧
    (∀ (b : GeminiAgent.AgentState) (i : Nat),
        i ∉ b.handlers.map Prod.fst → GeminiAgent.removeHandler b i = b) := by
  refine ⟨?_, rfl, fun b i hb => removeHandler_absent b i hb⟩
  intro p hp
  exact agentDisposeLoop_done a.handlers a p hp

theorem agent_dispose_teardown_witness :
    (∀ p ∈ (GeminiAgent.dispose
        ⟨[(0, initState), (1, { initState with is_done := true })]⟩).2.1,
       p.2.is_done = true) ∧
    (GeminiAgent.dispose
        ⟨[(0, initState), (1, { initState with is_done := true })]⟩).1.handlers = [] ∧
    ((2 : Nat) ∉ (([(0, initState)] : List (Nat × State)).map Prod.fst) →
      GeminiAgent.removeHandler ⟨[(0, initState)]⟩ 2 = ⟨[(0, initState)]⟩) :=
  ⟨(agent_dispose_teardown
      ⟨[(0, initState), (1, { initState with is_done := true })]⟩).1,
   (agent_dispose_teardown
      ⟨[(0, initState), (1, { initState with is_done := true })]⟩).2.1,
   fun hb => (agent_dispose_teardown
      ⟨[(0, initState), (1, { initState with is_done := true })]⟩).2.2
        ⟨[(0, initState)]⟩ 2 hb⟩

/-- Claim C3 counterexample: when the initial AI_STATE_GENERATING send fails
(here with a non-cancellation error), the run does NOT proceed to request the
streaming generation — no `generateContentStream` effect occurs — and it takes
the error path (AI_STATE_ERROR indicator, message text rewritten, disposal),
contradicting the claim that the failure does not abort the run. -/
theorem generating_failure_cex :
    (run ⟨"c", "m"⟩ initState (some ⟨"TypeError", some "network down"⟩) []
        StreamOutcome.ok).2.countP isGenerateRequest = 0 ∧
    (run ⟨"c", "m"⟩ initState (some ⟨"TypeError", some "network down"⟩) []
        StreamOutcome.ok).2 =
      [Effect.sendEvent "ai_indicator.update" (some "AI_STATE_ERROR") "c" "m",
       Effect.partialUpdateMessage "m" "network down" (some "TypeError: network down"),
       Effect.offStopListener, Effect.onDispose] :=
  ⟨by decide, by decide⟩

/-- Claim C3 (amended): if the initial AI_STATE_GENERATING status event fails,
the failure aborts the run: the handler does not request the streaming
generation (no `generateContentStream` effect), and a non-cancellation failure
takes the error path — error indicator, message text set to the error's
description, then disposal. -/
theorem generating_failure_takes_error_path (m : Message) (s : State) (e : GenError)
    (items : List StreamItem) (outcome : StreamOutcome)
    (hd : s.is_done = false) (he : e.name ≠ "AbortError") :
    run m s (some e) items outcome =
      ({ s with abortControllerSet := true, is_done := true, listenerOn := false },
       [Effect.sendEvent "ai_indicator.update" (some "AI_STATE_ERROR") m.cid m.id,
        Effect.partialUpdateMessage m.id (e.message.getD "Error generating the message")
          (some e.toString),
        Effect.offStopListener, Effect.onDispose]) ∧
    (run m s (some e) items outcome).2.countP isGenerateRequest = 0 := by
  have hs0 : ({ s with abortControllerSet := true } : State).is_done = false := hd
  have hcatch : runCatch m { s with abortControllerSet := true } e =
      ({ s with abortControllerSet := true, is_done := true, listenerOn := false },
       [Effect.sendEvent "ai_indicator.update" (some "AI_STATE_ERROR") m.cid m.id,
        Effect.partialUpdateMessage m.id (e.message.getD "Error generating the message")
          (some e.toString),
        Effect.offStopListener, Effect.onDispose]) := by
    unfold runCatch
    rw [if_neg he, handleError_of_not_done m e hs0]
  have h1 : run m s (some e) items outcome =
      ({ s with abortControllerSet := true, is_done := true, listenerOn := false },
       [Effect.sendEvent "ai_indicator.update" (some "AI_STATE_ERROR") m.cid m.id,
        Effect.partialUpdateMessage m.id (e.message.getD "Error generating the message")
          (some e.toString),
        Effect.offStopListener, Effect.onDispose]) := by
    have hdisp :
        dispose ({ s with abortControllerSet := true, is_done := true, listenerOn := false } : State)
          = ({ s with abortControllerSet := true, is_done := true, listenerOn := false },
             ([] : List Effect)) :=
      dispose_of_done rfl
    rw [run_some_eq, hcatch]
    dsimp only
    rw [hdisp]
    simp
  refine ⟨h1, ?_⟩
  rw [h1]
  simp [isGenerateRequest]

theorem generating_failure_takes_error_path_witness :
    initState.is_done = false ∧
    (("TypeError" : String) ≠ "AbortError") ∧
    (run ⟨"c", "m"⟩ initState (some ⟨"TypeError", some "down"⟩) []
        StreamOutcome.ok =
      ({ initState with abortControllerSet := true, is_done := true, listenerOn := false },
       [Effect.sendEvent "ai_indicator.update" (some "AI_STATE_ERROR") "c" "m",
        Effect.partialUpdateMessage "m"
          ((some "down").getD "Error generating the message")
          (some (GenError.toString ⟨"TypeError", some "down"⟩)),
        Effect.offStopListener, Effect.onDispose]) ∧
     (run ⟨"c", "m"⟩ initState (some ⟨"TypeError", some "down"⟩) []
        StreamOutcome.ok).2.countP isGenerateRequest = 0) :=
  ⟨rfl, by decide,
   generating_failure_takes_error_path ⟨"c", "m"⟩ initState ⟨"TypeError", some "down"⟩
     [] StreamOutcome.ok rfl (by decide)⟩

/-- Claim C5 counterexample: with `lastFlushTimestamp = 0`, a non-empty chunk
processed at time 1000 has at least 1000 ms elapsed and is appended to the
accumulator, yet no partial update is issued — the code flushes only when
strictly more than 1000 ms have elapsed. -/
theorem throttle_boundary_cex :
    (runStream ⟨"c", "m"⟩ initState "" [StreamItem.chunk 1000 "hi"]).effs = [] ∧
    (runStream ⟨"c", "m"⟩ initState "" [StreamItem.chunk 1000 "hi"]).fullResponse = "hi" ∧
    1000 - initState.last_update_time ≥ 1000 :=
  ⟨by decide, by decide, by decide⟩

/-- Claim C5 (amended): during chunk iteration a non-final partial update is
issued exactly when STRICTLY MORE than 1000 ms have elapsed since
`last_update_time` at the moment a non-empty chunk is appended (the in-loop
updates are exactly the `loopFlushes` of the chunk list, and every flush time
strictly exceeds the previous flush timestamp plus 1000); consequently any two
non-final partial updates are more than 1000 ms apart. -/
theorem throttle_strict (m : Message) (s : State) (chunks : List (Nat × String))
    (hd : s.is_done = false) :
    (runStream m s "" (chunkItems chunks)).effs =
      (loopFlushes s.last_update_time "" chunks).map
        (fun p => Effect.partialUpdateMessage m.id p.2 none) ∧
    (∀ p ∈ loopFlushes s.last_update_time "" chunks, s.last_update_time + 1000 < p.1) ∧
    List.Pairwise (fun a b => a + 1000 < b)
      ((loopFlushes s.last_update_time "" chunks).map Prod.fst) :=
  ⟨runStream_loopFlushes m chunks s "" hd,
   loopFlushes_lb chunks s.last_update_time "",
   loopFlushes_pairwise chunks s.last_update_time ""⟩

theorem throttle_strict_witness :
    initState.is_done = false ∧
    ((runStream ⟨"c", "m"⟩ initState ""
        (chunkItems [(1500, "a"), (2000, "b"), (2600, "c")])).effs =
      (loopFlushes initState.last_update_time "" [(1500, "a"), (2000, "b"), (2600, "c")]).map
        (fun p => Effect.partialUpdateMessage "m" p.2 none) ∧
     (∀ p ∈ loopFlushes initState.last_update_time "" [(1500, "a"), (2000, "b"), (2600, "c")],
        initState.last_update_time + 1000 < p.1) ∧
     List.Pairwise (fun a b => a + 1000 < b)
       ((loopFlushes initState.last_update_time ""
          [(1500, "a"), (2000, "b"), (2600, "c")]).map Prod.fst)) :=
  ⟨rfl, throttle_strict ⟨"c", "m"⟩ initState [(1500, "a"), (2000, "b"), (2600, "c")] rfl⟩

/-- Claim C6: on a non-cancellation error from the stream (with no stop signal
having fired), run emits the AI_STATE_ERROR status event, then rewrites the
message's visible text to the error's description, then disposes — in that
order — and the generation is not retried: the whole trace contains exactly
one `generateContentStream` request. -/
theorem error_path_order (m : Message) (s : State) (items : List StreamItem)
    (e : GenError) (hd : s.is_done = false) (he : e.name ≠ "AbortError")
    (hns : noStopSignalFor m items = true) :
    run m s none items (StreamOutcome.err e) =
      ({ (runStream m { s with abortControllerSet := true } "" items).state with
          is_done := true, listenerOn := false },
       [Effect.sendEvent "ai_indicator.update" (some "AI_STATE_GENERATING") m.cid m.id,
        Effect.generateContentStream s.message_text]
         ++ (runStream m { s with abortControllerSet := true } "" items).effs
         ++ [Effect.sendEvent "ai_indicator.update" (some "AI_STATE_ERROR") m.cid m.id,
             Effect.partialUpdateMessage m.id
               (e.message.getD "Error generating the message") (some e.toString),
             Effect.offStopListener, Effect.onDispose]) ∧
    (run m s none items (StreamOutcome.err e)).2.countP isGenerateRequest = 1 := by
  have hs0 : ({ s with abortControllerSet := true } : State).is_done = false := hd
  obtain ⟨hdone, hbroke⟩ :=
    noStop_not_done m items { s with abortControllerSet := true } "" hs0 hns
  have hcatch : runCatch m
      (runStream m { s with abortControllerSet := true } "" items).state e =
      ({ (runStream m { s with abortControllerSet := true } "" items).state with
          is_done := true, listenerOn := false },
       [Effect.sendEvent "ai_indicator.update" (some "AI_STATE_ERROR") m.cid m.id,
        Effect.partialUpdateMessage m.id
          (e.message.getD "Error generating the message") (some e.toString),
        Effect.offStopListener, Effect.onDispose]) := by
    unfold runCatch
    rw [if_neg he, handleError_of_not_done m e hdone]
  have h1 : run m s none items (StreamOutcome.err e) =
      ({ (runStream m { s with abortControllerSet := true } "" items).state with
          is_done := true, listenerOn := false },
       [Effect.sendEvent "ai_indicator.update" (some "AI_STATE_GENERATING") m.cid m.id,
        Effect.generateContentStream s.message_text]
         ++ (runStream m { s with abortControllerSet := true } "" items).effs
         ++ [Effect.sendEvent "ai_indicator.update" (some "AI_STATE_ERROR") m.cid m.id,
             Effect.partialUpdateMessage m.id
               (e.message.getD "Error generating the message") (some e.toString),
             Effect.offStopListener, Effect.onDispose]) := by
    have hdisp :
        dispose ({ (runStream m { s with abortControllerSet := true } "" items).state with is_done := true, listenerOn := false } : State)
          = ({ (runStream m { s with abortControllerSet := true } "" items).state with is_done := true, listenerOn := false },
             ([] : List Effect)) :=
      dispose_of_done rfl
    rw [run_none_err m s items e hbroke, hcatch]
    dsimp only
    rw [hdisp]
    simp [List.append_assoc]
  refine ⟨h1, ?_⟩
  rw [h1]
  simp [List.countP_append, List.countP_cons, isGenerateRequest,
        runStream_countP_gen m items { s with abortControllerSet := true } ""]

theorem error_path_order_witness :
    initState.is_done = false ∧
    (("TypeError" : String) ≠ "AbortError") ∧
    noStopSignalFor ⟨"c", "m"⟩ [StreamItem.chunk 1200 "hi"] = true ∧
    (run ⟨"c", "m"⟩ initState none [StreamItem.chunk 1200 "hi"]
        (StreamOutcome.err ⟨"TypeError", some "quota"⟩) =
      ({ (runStream ⟨"c", "m"⟩ { initState with abortControllerSet := true } ""
            [StreamItem.chunk 1200 "hi"]).state with
          is_done := true, listenerOn := false },
       [Effect.sendEvent "ai_indicator.update" (some "AI_STATE_GENERATING") "c" "m",
        Effect.generateContentStream initState.message_text]
         ++ (runStream ⟨"c", "m"⟩ { initState with abortControllerSet := true } ""
              [StreamItem.chunk 1200 "hi"]).effs
         ++ [Effect.sendEvent "ai_indicator.update" (some "AI_STATE_ERROR") "c" "m",
             Effect.partialUpdateMessage "m"
               ((some "quota").getD "Error generating the message")
               (some (GenError.toString ⟨"TypeError", some "quota"⟩)),
             Effect.offStopListener, Effect.onDispose]) ∧
     (run ⟨"c", "m"⟩ initState none [StreamItem.chunk 1200 "hi"]
        (StreamOutcome.err ⟨"TypeError", some "quota"⟩)).2.countP isGenerateRequest = 1) :=
  ⟨rfl, by decide, by decide,
   error_path_order ⟨"c", "m"⟩ initState [StreamItem.chunk 1200 "hi"]
     ⟨"TypeError", some "quota"⟩ rfl (by decide) (by decide)⟩

/-- Claim C1: monotonic accumulation and final flush.  For any run over any
stream (stop signals included) started on a live handler, the texts carried by
the partial updates form a prefix chain — each update's text extends the
previous one — and on normal stream exhaustion the trace contains exactly one
final partial update, issued regardless of throttle timing, whose text is the
concatenation of the chunk texts appended before `done` became true, followed
only by the clear-indicator event and disposal. -/
theorem run_monotonic_accumulation (m : Message) (s : State) (items : List StreamItem)
    (hd : s.is_done = false) :
    run m s none items StreamOutcome.ok =
      ((dispose (runStream m { s with abortControllerSet := true } "" items).state).1,
       [Effect.sendEvent "ai_indicator.update" (some "AI_STATE_GENERATING") m.cid m.id,
        Effect.generateContentStream s.message_text]
         ++ (runStream m { s with abortControllerSet := true } "" items).effs
         ++ [Effect.partialUpdateMessage m.id (textBeforeDone m items) none,
             Effect.sendEvent "ai_indicator.clear" none m.cid m.id]
         ++ (dispose (runStream m { s with abortControllerSet := true } "" items).state).2) ∧
    prefixChain (partialTexts (run m s none items StreamOutcome.ok).2) := by
  have hs0 : ({ s with abortControllerSet := true } : State).is_done = false := hd
  have hfull : (runStream m { s with abortControllerSet := true } "" items).fullResponse
      = textBeforeDone m items := by
    rw [runStream_full m items { s with abortControllerSet := true } "" hs0,
        String.empty_append]
  have h1 : run m s none items StreamOutcome.ok =
      ((dispose (runStream m { s with abortControllerSet := true } "" items).state).1,
       [Effect.sendEvent "ai_indicator.update" (some "AI_STATE_GENERATING") m.cid m.id,
        Effect.generateContentStream s.message_text]
         ++ (runStream m { s with abortControllerSet := true } "" items).effs
         ++ [Effect.partialUpdateMessage m.id (textBeforeDone m items) none,
             Effect.sendEvent "ai_indicator.clear" none m.cid m.id]
         ++ (dispose (runStream m { s with abortControllerSet := true } "" items).state).2) := by
    rw [run_none_ok m s items, hfull]
  refine ⟨h1, ?_⟩
  rw [h1]
  dsimp only
  have hchain := runStream_chain m items { s with abortControllerSet := true } ""
  rw [hfull] at hchain
  have hpt : partialTexts
      ([Effect.sendEvent "ai_indicator.update" (some "AI_STATE_GENERATING") m.cid m.id,
        Effect.generateContentStream s.message_text]
         ++ (runStream m { s with abortControllerSet := true } "" items).effs
         ++ [Effect.partialUpdateMessage m.id (textBeforeDone m items) none,
             Effect.sendEvent "ai_indicator.clear" none m.cid m.id]
         ++ (dispose (runStream m { s with abortControllerSet := true } "" items).state).2)
      = partialTexts (runStream m { s with abortControllerSet := true } "" items).effs
          ++ [textBeforeDone m items] := by
    have e1 : partialTexts
        [Effect.sendEvent "ai_indicator.update" (some "AI_STATE_GENERATING") m.cid m.id,
         Effect.generateContentStream s.message_text] = [] := rfl
    have e2 : partialTexts
        [Effect.partialUpdateMessage m.id (textBeforeDone m items) none,
         Effect.sendEvent "ai_indicator.clear" none m.cid m.id]
        = [textBeforeDone m items] := rfl
    simp [partialTexts_append, partialTexts_dispose, e1, e2,
          partialTexts_cons_sendEvent, partialTexts_cons_gen, partialTexts_cons_update]
  rw [hpt]
  exact prefixChain_of_chainFrom hchain

theorem run_monotonic_accumulation_witness :
    initState.is_done = false ∧
    (run ⟨"c", "m"⟩ initState none
        [StreamItem.chunk 1100 "ab", StreamItem.chunk 1200 "cd",
         StreamItem.stop (some "x"), StreamItem.chunk 2500 "ef"] StreamOutcome.ok =
      ((dispose (runStream ⟨"c", "m"⟩ { initState with abortControllerSet := true } ""
          [StreamItem.chunk 1100 "ab", StreamItem.chunk 1200 "cd",
           StreamItem.stop (some "x"), StreamItem.chunk 2500 "ef"]).state).1,
       [Effect.sendEvent "ai_indicator.update" (some "AI_STATE_GENERATING") "c" "m",
        Effect.generateContentStream initState.message_text]
         ++ (runStream ⟨"c", "m"⟩ { initState with abortControllerSet := true } ""
              [StreamItem.chunk 1100 "ab", StreamItem.chunk 1200 "cd",
               StreamItem.stop (some "x"), StreamItem.chunk 2500 "ef"]).effs
         ++ [Effect.partialUpdateMessage "m"
               (textBeforeDone ⟨"c", "m"⟩
                 [StreamItem.chunk 1100 "ab", StreamItem.chunk 1200 "cd",
                  StreamItem.stop (some "x"), StreamItem.chunk 2500 "ef"]) none,
             Effect.sendEvent "ai_indicator.clear" none "c" "m"]
         ++ (dispose (runStream ⟨"c", "m"⟩ { initState with abortControllerSet := true } ""
              [StreamItem.chunk 1100 "ab", StreamItem.chunk 1200 "cd",
               StreamItem.stop (some "x"), StreamItem.chunk 2500 "ef"]).state).2) ∧
     prefixChain (partialTexts (run ⟨"c", "m"⟩ initState none
        [StreamItem.chunk 1100 "ab", StreamItem.chunk 1200 "cd",
         StreamItem.stop (some "x"), StreamItem.chunk 2500 "ef"] StreamOutcome.ok).2)) :=
  ⟨rfl, run_monotonic_accumulation ⟨"c", "m"⟩ initState
    [StreamItem.chunk 1100 "ab", StreamItem.chunk 1200 "cd",
     StreamItem.stop (some "x"), StreamItem.chunk 2500 "ef"] rfl⟩

/-- Claim C4 counterexample: a concrete run in which a stop signal for the
handler's own message is accepted after two chunks and the provider then
delivers one more chunk.  The loop does break at that chunk, but the events
after the stop handler's disposal (position 7 onwards of the trace) include a
further `partialUpdateMessage` — the unconditional final flush — and a second
clear-indicator event, contradicting "no further partial updates are issued"
and "the only subsequent events are a clear-indicator emission and removal". -/
theorem stop_midstream_cex :
    (run ⟨"c", "m"⟩ initState none
       [StreamItem.chunk 2000 "Hello ", StreamItem.chunk 2500 "wor",
        StreamItem.stop (some "m"), StreamItem.chunk 3000 "ld"] StreamOutcome.ok).2 =
      [Effect.sendEvent "ai_indicator.update" (some "AI_STATE_GENERATING") "c" "m",
       Effect.generateContentStream "",
       Effect.partialUpdateMessage "m" "Hello " none,
       Effect.abort,
       Effect.sendEvent "ai_indicator.clear" none "c" "m",
       Effect.offStopListener, Effect.onDispose,
       Effect.partialUpdateMessage "m" "Hello wor" none,
       Effect.sendEvent "ai_indicator.clear" none "c" "m"] ∧
    ((run ⟨"c", "m"⟩ initState none
       [StreamItem.chunk 2000 "Hello ", StreamItem.chunk 2500 "wor",
        StreamItem.stop (some "m"), StreamItem.chunk 3000 "ld"]
        StreamOutcome.ok).2.drop 7).countP isPartialUpdate = 1 :=
  ⟨by decide, by decide⟩

/-- Claim C4 (amended): after a stop request for the handler's own message is
accepted mid-stream, no further THROTTLED in-loop partial updates are issued
even if the provider keeps delivering chunks (the loop checks `done` and
breaks); the stop handler's own effects are the abort request, a
clear-indicator event and disposal (which removes the handler from the
registry); however the run loop, upon exiting, still issues its single
unconditional final partial update carrying the text accumulated before the
stop, followed by one more clear-indicator event. -/
theorem stop_midstream_final_flush (m : Message) (s : State) (pre post : List StreamItem)
    (hd : s.is_done = false)
    (hpre : (runStream m { s with abortControllerSet := true } "" pre).state.is_done = false) :
    run m s none (pre ++ StreamItem.stop (some m.id) :: post) StreamOutcome.ok =
      ({ (runStream m { s with abortControllerSet := true } "" pre).state with is_done := true, listenerOn := false },
       [Effect.sendEvent "ai_indicator.update" (some "AI_STATE_GENERATING") m.cid m.id,
        Effect.generateContentStream s.message_text]
         ++ (runStream m { s with abortControllerSet := true } "" pre).effs
         ++ [Effect.abort, Effect.sendEvent "ai_indicator.clear" none m.cid m.id,
             Effect.offStopListener, Effect.onDispose]
         ++ [Effect.partialUpdateMessage m.id
               (runStream m { s with abortControllerSet := true } "" pre).fullResponse none,
             Effect.sendEvent "ai_indicator.clear" none m.cid m.id]) := by
  have hbroke : (runStream m { s with abortControllerSet := true } "" pre).broke = false :=
    (runStream_not_broke m pre { s with abortControllerSet := true } "" hpre).1
  have habort : (runStream m { s with abortControllerSet := true } ""
      pre).state.abortControllerSet = true := by
    rw [runStream_abortSet m pre { s with abortControllerSet := true } ""]
  have hstop : handleStopGenerating m
      (runStream m { s with abortControllerSet := true } "" pre).state (some m.id) =
      ({ (runStream m { s with abortControllerSet := true } "" pre).state with is_done := true, listenerOn := false },
       [Effect.abort, Effect.sendEvent "ai_indicator.clear" none m.cid m.id,
        Effect.offStopListener, Effect.onDispose]) := by
    rw [handleStop_accepted m hpre]
    simp [habort]
  have hSdone : ({ (runStream m { s with abortControllerSet := true } "" pre).state with is_done := true, listenerOn := false } : State).is_done = true := rfl
  have hrest := runStream_of_done m post
      (runStream m { s with abortControllerSet := true } "" pre).fullResponse hSdone
  have hdisp :
      dispose ({ (runStream m { s with abortControllerSet := true } "" pre).state with is_done := true, listenerOn := false } : State)
        = ({ (runStream m { s with abortControllerSet := true } "" pre).state with is_done := true, listenerOn := false },
           ([] : List Effect)) :=
    dispose_of_done hSdone
  rw [run_none_ok m s (pre ++ StreamItem.stop (some m.id) :: post),
      runStream_append m (StreamItem.stop (some m.id) :: post) pre
        { s with abortControllerSet := true } "" hbroke]
  dsimp only
  rw [runStream_stop_eq, hstop]
  dsimp only
  rw [hrest.1, hrest.2.1, hrest.2.2, hdisp]
  simp [List.append_assoc]

theorem stop_midstream_final_flush_witness :
    initState.is_done = false ∧
    (runStream ⟨"c", "m"⟩ { initState with abortControllerSet := true } ""
        [StreamItem.chunk 2000 "Hello ", StreamItem.chunk 2500 "wor"]).state.is_done
      = false ∧
    run ⟨"c", "m"⟩ initState none
        ([StreamItem.chunk 2000 "Hello ", StreamItem.chunk 2500 "wor"]
          ++ StreamItem.stop (some ("m" : String)) :: [StreamItem.chunk 3000 "ld"])
        StreamOutcome.ok =
      ({ (runStream ⟨"c", "m"⟩ { initState with abortControllerSet := true } ""
          [StreamItem.chunk 2000 "Hello ", StreamItem.chunk 2500 "wor"]).state with is_done := true, listenerOn := false },
       [Effect.sendEvent "ai_indicator.update" (some "AI_STATE_GENERATING") "c" "m",
        Effect.generateContentStream initState.message_text]
         ++ (runStream ⟨"c", "m"⟩ { initState with abortControllerSet := true } ""
              [StreamItem.chunk 2000 "Hello ", StreamItem.chunk 2500 "wor"]).effs
         ++ [Effect.abort, Effect.sendEvent "ai_indicator.clear" none "c" "m",
             Effect.offStopListener, Effect.onDispose]
         ++ [Effect.partialUpdateMessage "m"
               (runStream ⟨"c", "m"⟩ { initState with abortControllerSet := true } ""
                 [StreamItem.chunk 2000 "Hello ", StreamItem.chunk 2500 "wor"]).fullResponse
               none,
             Effect.sendEvent "ai_indicator.clear" none "c" "m"]) :=
  ⟨rfl, by decide,
   stop_midstream_final_flush ⟨"c", "m"⟩ initState
     [StreamItem.chunk 2000 "Hello ", StreamItem.chunk 2500 "wor"]
     [StreamItem.chunk 3000 "ld"] rfl (by decide)⟩


